import Mathlib

/-!
Verification development for the jobkit repository.

Shallow embedding of the parts of the code the claims are about:
string helpers mirroring Python primitives, a small backtracking
regex engine (covering exactly the regex constructs used by the
code), the PDF line classifier, the LLM-output cleaner, the
LinkedIn search-URL builder, the Job save/load round trip, the
profile background merges, the async status-file protocol, the
login-wait loops, scraper teardown, and the settings route.
-/

namespace Jobkit

/-- apostrophe character, used inside some string constants. -/
def apos : Char := Char.ofNat 39

/-! ## Python string primitives -/

/-- Python `str.strip()` on a character list: drop whitespace from
both ends. -/
def stripChars (cs : List Char) : List Char :=
  ((cs.dropWhile Char.isWhitespace).reverse.dropWhile Char.isWhitespace).reverse

/-- Python `str.strip()`. -/
def pyStrip (s : String) : String := String.mk (stripChars s.toList)

/-- `n` is a leading segment of `h`. -/
def leadsList : List Char → List Char → Bool
  | [], _ => true
  | _ :: _, [] => false
  | a :: as, b :: bs => a = b && leadsList as bs

/-- Python `n in h` substring test on character lists. -/
def containsList (h n : List Char) : Bool :=
  match h with
  | [] => n.isEmpty
  | _ :: t => leadsList n h || containsList t n

/-- Python `n in h` substring test on strings. -/
def strContains (h n : String) : Bool := containsList h.toList n.toList

/-- Python `s.startswith(pre)`. -/
def pyStarts (s pre : String) : Bool := leadsList pre.toList s.toList

/-- Python `s[:n]` slice. -/
def pyTake (n : Nat) (s : String) : String := String.mk (s.toList.take n)

/-- Python `str.isupper()` (ASCII scope): at least one cased
character and no lowercase character. -/
def pyIsUpper (s : String) : Bool :=
  s.toList.any (fun c => c.isUpper || c.isLower) &&
  s.toList.all (fun c => !c.isLower)

/-- Number of words of Python `str.split()` (split on whitespace
runs, empty pieces dropped): auxiliary walker, the flag records
whether the previous character was inside a word. -/
def wordsCountAux : List Char → Bool → Nat
  | [], _ => 0
  | c :: cs, inWord =>
    if c.isWhitespace then wordsCountAux cs false
    else (if inWord then 0 else 1) + wordsCountAux cs true

/-- `len(s.split())` in Python. -/
def wordsCount (s : String) : Nat := wordsCountAux s.toList false

/-! ## Regex engine

A small backtracking matcher covering exactly the constructs
appearing in the regexes of the code: literals (optionally
case-insensitive, for `re.IGNORECASE`), single-character classes,
greedy and lazy star over a class, `?`, alternation, sequencing,
and the `$` anchor (end of string or just before a final newline).
`rems` returns the possible remainders after a match starting at
the head of the input, in the backtracking preference order Python
uses; the head of that list is the match Python picks. -/
inductive RE where
  | eps : RE
  | lit (s : List Char) (ci : Bool) : RE
  | cls (p : Char → Bool) : RE
  | star (p : Char → Bool) (lazy : Bool) : RE
  | opt (r : RE) : RE
  | alt (r₁ r₂ : RE) : RE
  | seq (r₁ r₂ : RE) : RE
  | lineEnd : RE

/-- Strip a literal (case-insensitively when `ci`). -/
def stripLit (s : List Char) (ci : Bool) (cs : List Char) : Option (List Char) :=
  match s, cs with
  | [], rest => some rest
  | _ :: _, [] => none
  | a :: as, b :: bs =>
    if (if ci then a.toLower = b.toLower else a = b) then stripLit as ci bs else none

/-- Remainders of a starred class, in preference order (greedy:
longest first; lazy: shortest first). -/
def starRems (p : Char → Bool) (lazy : Bool) : List Char → List (List Char)
  | [] => [[]]
  | c :: cs =>
    if p c then
      if lazy then (c :: cs) :: starRems p lazy cs
      else starRems p lazy cs ++ [c :: cs]
    else [c :: cs]

/-- All remainders of a match of `r` at the head of the input, in
backtracking preference order. -/
def rems : RE → List Char → List (List Char)
  | .eps, cs => [cs]
  | .lit s ci, cs =>
    match stripLit s ci cs with
    | some rest => [rest]
    | none => []
  | .cls p, cs =>
    match cs with
    | [] => []
    | c :: rest => if p c then [rest] else []
  | .star p lz, cs => starRems p lz cs
  | .opt r, cs => rems r cs ++ [cs]
  | .alt r₁ r₂, cs => rems r₁ cs ++ rems r₂ cs
  | .seq r₁ r₂, cs => (rems r₁ cs).flatMap (fun cs' => rems r₂ cs')
  | .lineEnd, cs => if cs = [] ∨ cs = [Char.ofNat 10] then [cs] else []

/-- The remainder of the match Python picks at this position, if
any. -/
def firstRem (r : RE) (cs : List Char) : Option (List Char) := (rems r cs).head?

/-- `re.match(r, s) is not None` (match anchored at the start). -/
def reMatches (r : RE) (s : String) : Bool := !(rems r s.toList).isEmpty

/-- Sequence a list of regexes. -/
def seqList (rs : List RE) : RE := rs.foldr RE.seq RE.eps

/-- `re.sub(r, rep, s)` for a pattern anchored at the start with
`^` (without `re.MULTILINE`, `^` only asserts at position 0, so at
most the leading match is replaced). -/
def subAnchored (r : RE) (rep : List Char) (cs : List Char) : List Char :=
  match firstRem r cs with
  | some rest => rep ++ rest
  | none => cs

/-- Scanner for `re.sub` on an unanchored pattern: replace every
non-overlapping match, scanning left to right.  The fuel argument
(initially the input length) only bounds the scan so the recursion
is structural; a match never grows the remainder, so the fuel is
never exhausted. -/
def subAllAux (r : RE) (rep : List Char) : Nat → List Char → List Char
  | 0, cs => cs
  | _ + 1, [] => []
  | fuel + 1, c :: cs =>
    match firstRem r (c :: cs) with
    | some rest =>
      if rest.length < (c :: cs).length then rep ++ subAllAux r rep fuel rest
      else c :: subAllAux r rep fuel cs
    | none => c :: subAllAux r rep fuel cs

/-- `re.sub(r, rep, s)` for an unanchored pattern.  (The patterns
this is used with cannot match the empty string.) -/
def subAll (r : RE) (rep cs : List Char) : List Char := subAllAux r rep cs.length cs

/-! ## PDF renderer: line classification (`export_to_pdf`)

Embedding of the per-line branch chain of
`src/jobkit/exporters/pdf.py, export_to_pdf`.  The classifier
mirrors the Python branches in order; each regex below is the one
from the source. -/

/-- Python `\s` (ASCII scope). -/
def wsP (c : Char) : Bool := c.isWhitespace

/-- `^#\s+[^#]` from `export_to_pdf` (H1 check). -/
def reH1 : RE :=
  seqList [.lit "#".toList false, .cls wsP, .star wsP false, .cls (fun c => c ≠ '#')]

/-- `^##\s+[^#]` from `export_to_pdf` (first H2 check). -/
def reH2a : RE :=
  seqList [.lit "##".toList false, .cls wsP, .star wsP false, .cls (fun c => c ≠ '#')]

/-- `^##\s*$` from `export_to_pdf` (second H2 check). -/
def reH2empty : RE :=
  seqList [.lit "##".toList false, .star wsP false, .lineEnd]

/-- `^\d+[\.\)]\s` from `export_to_pdf` (numbered-list check). -/
def reNumbered : RE :=
  seqList [.cls Char.isDigit, .star Char.isDigit false,
           .cls (fun c => c = '.' || c = ')'), .cls wsP]

/-- `^#+\s*$` from `export_to_pdf` (bare-hashes line). -/
def reHashOnly : RE :=
  seqList [.cls (fun c => c = '#'), .star (fun c => c = '#') false, .star wsP false, .lineEnd]

/-- The block class `export_to_pdf` assigns to a line.  `caps` is
the all-caps pseudo-heading (rendered with the H2 style);
`artifact` and `hashOnly` lines are skipped; `blank` lines only
produce vertical space. -/
inductive LineClass where
  | blank | artifact | h1 | h2 | h3 | bullet
  | numbered | hashOnly | caps | paragraph
  deriving DecidableEq, Repr

/-- The ordered branch chain of `export_to_pdf` applied to one raw
line (the line is stripped first, as in the source). -/
def classifyLine (raw : String) : LineClass :=
  let line := pyStrip raw
  if line = "" then .blank
  else if line = "```" || line = "```markdown" || line = "---" || line = "***" || line = "===" then
    .artifact
  else if reMatches reH1 line then .h1
  else if reMatches reH2a line || (!(reMatches reH2empty line) && pyStarts line "## ") then .h2
  else if pyStarts line "### " then .h3
  else if pyStarts line "- " || pyStarts line "* " then .bullet
  else if reMatches reNumbered line then .numbered
  else if reMatches reHashOnly line then .hashOnly
  else if pyIsUpper line && line.length < 50 && wordsCount line ≤ 5 then .caps
  else .paragraph

/-! ## Document generator post-processing (`clean_llm_output`)

Embedding of `src/jobkit/generators/resume.py, clean_llm_output`.
Each regex is the one from the source; the preamble substitutions
run under `re.IGNORECASE`. -/

/-- `^` ++ `(?:markdown)?\s*\n?` after a code fence:
`^```(?:markdown)?\s*\n?`. -/
def reFenceOpen : RE :=
  seqList [.lit "```".toList false, .opt (.lit "markdown".toList false),
           .star wsP false, .opt (.cls (fun c => c = Char.ofNat 10))]

/-- `\n?```\s*$`. -/
def reFenceClose : RE :=
  seqList [.opt (.cls (fun c => c = Char.ofNat 10)), .lit "```".toList false,
           .star wsP false, .lineEnd]

/-- Shared tail of the preamble patterns: `.*?:\s*\n*` (`.` does
not match a newline; `.*?` is lazy). -/
def rePreambleTail : RE :=
  seqList [.star (fun c => c ≠ Char.ofNat 10) true, .lit ":".toList true,
           .star wsP false, .star (fun c => c = Char.ofNat 10) false]

/-- `(?:a |the )?(?:tailored |professional )?resume` (under
`re.IGNORECASE`). -/
def reResumeCore : RE :=
  seqList [.opt (.alt (.lit "a ".toList true) (.lit "the ".toList true)),
           .opt (.alt (.lit "tailored ".toList true) (.lit "professional ".toList true)),
           .lit "resume".toList true]

/-- `^Here is (?:a |the )?(?:tailored |professional )?resume.*?:\s*\n*`. -/
def rePreamble1 : RE := seqList [.lit "Here is ".toList true, reResumeCore, rePreambleTail]

/-- `^Here's (?:a |the )?(?:tailored |professional )?resume.*?:\s*\n*`. -/
def rePreamble2 : RE :=
  seqList [.lit ("Here".toList ++ [apos] ++ "s ".toList) true, reResumeCore, rePreambleTail]

/-- `^I've (?:written|created|drafted).*?:\s*\n*`. -/
def rePreamble3 : RE :=
  seqList [.lit ("I".toList ++ [apos] ++ "ve ".toList) true,
           .alt (.lit "written".toList true)
                (.alt (.lit "created".toList true) (.lit "drafted".toList true)),
           rePreambleTail]

/-- `^Below is.*?:\s*\n*`. -/
def rePreamble4 : RE := seqList [.lit "Below is".toList true, rePreambleTail]

/-- `^The following is.*?:\s*\n*`. -/
def rePreamble5 : RE := seqList [.lit "The following is".toList true, rePreambleTail]

/-- `\n#+\s*\n` (collapsed to `\n\n`). -/
def reHashLine : RE :=
  seqList [.cls (fun c => c = Char.ofNat 10), .cls (fun c => c = '#'),
           .star (fun c => c = '#') false, .star wsP false,
           .cls (fun c => c = Char.ofNat 10)]

/-- `clean_llm_output` from `src/jobkit/generators/resume.py`:
strip a leading code fence, trailing code fences, the preamble
patterns, collapse bare-hash lines, then `strip()`. -/
def clean_llm_output (text : String) : String :=
  let t := subAnchored reFenceOpen [] text.toList
  let t := subAll reFenceClose [] t
  let t := [rePreamble1, rePreamble2, rePreamble3, rePreamble4, rePreamble5].foldl
    (fun acc p => subAnchored p [] acc) t
  let t := subAll reHashLine (Char.ofNat 10 :: [Char.ofNat 10]) t
  pyStrip (String.mk t)

/-! ## LinkedIn search-URL builder (`LinkedInScraper._build_search_url`)

Embedding of `src/jobkit/scrapers/linkedin.py`.  `quote_plus`
mirrors `urllib.parse.quote_plus`: alphanumerics and `_.-~` pass
through, a space becomes `+`, everything else is percent-encoded
per UTF-8 byte with uppercase hex digits. -/

/-- Uppercase hex digit. -/
def hexDigit (n : Nat) : Char :=
  if n < 10 then Char.ofNat (48 + n) else Char.ofNat (55 + n)

/-- UTF-8 bytes of a character. -/
def utf8Bytes (c : Char) : List Nat :=
  let n := c.toNat
  if n < 128 then [n]
  else if n < 2048 then [192 + n / 64, 128 + n % 64]
  else if n < 65536 then [224 + n / 4096, 128 + (n / 64) % 64, 128 + n % 64]
  else [240 + n / 262144, 128 + (n / 4096) % 64, 128 + (n / 64) % 64, 128 + n % 64]

/-- Characters `urllib.parse` never quotes. -/
def alwaysSafe (c : Char) : Bool :=
  c.isAlphanum || c = '_' || c = '.' || c = '-' || c = '~'

/-- `urllib.parse.quote_plus` on one character. -/
def quotePlusChar (c : Char) : List Char :=
  if c = ' ' then ['+']
  else if alwaysSafe c then [c]
  else (utf8Bytes c).flatMap (fun b => ['%', hexDigit (b / 16), hexDigit (b % 16)])

/-- `urllib.parse.quote_plus`. -/
def quote_plus (s : String) : String := String.mk (s.toList.flatMap quotePlusChar)

/-- `remote_map = {"on-site": "1", "remote": "2", "hybrid": "3"}`. -/
def remote_map (r : String) : Option String :=
  if r = "on-site" then some "1"
  else if r = "remote" then some "2"
  else if r = "hybrid" then some "3"
  else none

/-- `exp_map` from `_build_search_url`. -/
def exp_map (e : String) : Option String :=
  if e = "internship" then some "1"
  else if e = "entry" then some "2"
  else if e = "associate" then some "3"
  else if e = "mid-senior" then some "4"
  else if e = "director" then some "5"
  else if e = "executive" then some "6"
  else none

/-- `date_map = {"day": "r86400", "week": "r604800", "month": "r2592000"}`. -/
def date_map (d : String) : Option String :=
  if d = "day" then some "r86400"
  else if d = "week" then some "r604800"
  else if d = "month" then some "r2592000"
  else none

/-- `", ".join`-style join with a separator. -/
def joinWith (sep : String) : List String → String
  | [] => ""
  | [s] => s
  | s :: rest => s ++ sep ++ joinWith sep rest

/-- `LinkedInScraper.JOBS_URL`. -/
def JOBS_URL : String := "https://www.linkedin.com/jobs/search/"

/-- `LinkedInScraper._build_search_url`: `None` models Python
`None` for each optional filter argument. -/
def build_search_url (keywords location : String)
    (remote_options : Option (List String))
    (experience_level : Option (List String))
    (date_posted : Option String) : String :=
  let params := ["keywords=" ++ quote_plus keywords]
  let params := if location ≠ "" then params ++ ["location=" ++ quote_plus location] else params
  let params :=
    match remote_options with
    | some ros =>
      let codes := ros.filterMap remote_map
      if codes ≠ [] then params ++ ["f_WT=" ++ joinWith "," codes] else params
    | none => params
  let params :=
    match experience_level with
    | some els =>
      let codes := els.filterMap exp_map
      if codes ≠ [] then params ++ ["f_E=" ++ joinWith "," codes] else params
    | none => params
  let params :=
    match date_posted with
    | some d =>
      match date_map d with
      | some code => params ++ ["f_TPR=" ++ code]
      | none => params
    | none => params
  JOBS_URL ++ "?" ++ joinWith "&" params

/-! ## Job model: save / load round trip (`scrapers/base.py`)

`Job.save` dumps `asdict(self)` to a JSON file and `Job.load` does
`cls(**json.load(f))`; the flat-dict JSON layer round-trips
string/None fields exactly (the spec treats the JSON persistence
wrapper as out of scope), so the file is modelled as the field
record itself.  `__post_init__` replaces an empty `scraped_at`
with the current time. -/

structure Job where
  id : String
  title : String
  company : String
  location : String
  description : String
  url : String
  source : String
  salary : Option String
  posted_date : Option String
  scraped_at : String
  deriving DecidableEq, Repr

namespace Job

/-- The dataclass constructor followed by `__post_init__` (`now`
is `datetime.now().isoformat()`). -/
def init (now : String) (j : Job) : Job :=
  if j.scraped_at = "" then { j with scraped_at := now } else j

/-- `Job.save`: the JSON dict written to the file (`asdict`). -/
def save (j : Job) : Job := j

/-- `Job.load`: `cls(**data)` on the dict read back, which re-runs
`__post_init__`. -/
def load (now : String) (data : Job) : Job := init now data

end Job

/-! ## Profile background merges (`web/app.py`)

Embeddings of the background-merge logic of `upload_resume`,
`import_github` and `_run_linkedin_import_process`.  Each function
returns the `background` field stored after the import, given the
previously stored raw background and the newly imported text. -/

/-- `upload_resume`: background handling given `replace_existing`,
the stored background and the parsed file text. -/
def mergeResumeUpload (replace_existing : Bool) (existingRaw newRaw : String) : String :=
  let new_text := pyStrip newRaw
  let existing_bg := pyStrip existingRaw
  if replace_existing || existing_bg = "" then new_text
  else if !(strContains existing_bg (pyTake 100 new_text)) then
    "=== FROM RESUME ===\n" ++ new_text ++ "\n\n" ++ existing_bg
  else existingRaw

/-- `import_github`: background handling given the stored
background and the formatted GitHub text. -/
def mergeGithub (existingRaw githubText : String) : String :=
  let existing_bg := pyStrip existingRaw
  if existing_bg ≠ "" then
    if !(strContains existing_bg "=== FROM GITHUB ===") then
      existing_bg ++ "\n\n=== FROM GITHUB ===\n" ++ githubText
    else existingRaw
  else githubText

/-- `_run_linkedin_import_process`: background handling given
whether LinkedIn returned substantial data, the stored background
and the formatted LinkedIn text. -/
def mergeLinkedin (has_substantial_data : Bool) (existingRaw linkedinRaw : String) : String :=
  if !has_substantial_data then existingRaw
  else
    let existing_bg := pyStrip existingRaw
    let linkedin_bg := pyStrip linkedinRaw
    if existing_bg ≠ "" then
      if !(strContains existing_bg (pyTake 100 linkedin_bg)) then
        "=== FROM LINKEDIN ===\n" ++ linkedin_bg ++ "\n\n=== FROM RESUME ===\n" ++ existing_bg
      else existingRaw
    else linkedin_bg

/-! ## Async task runner: status-file writes (`web/app.py`)

Embeddings of `_run_search_process` and
`_run_linkedin_import_process`.  The try-body of each process
either produces a value or raises (modelled by `Except`); the
functions return the sequence of records written to the status
file by the spawned process, in order.  `write_status` defaults
the payload to the empty payload when none is passed. -/

/-- One record written to a `.search_<id>.json` /
`.import_<id>.json` status file; the payload is the `jobs` list or
the `profile` dict. -/
structure StatusRec (α : Type) where
  status : String
  payload : α
  error : String
  deriving DecidableEq, Repr

/-- A status is terminal when it is `complete` or `error`. -/
def StatusRec.terminal {α : Type} (r : StatusRec α) : Bool :=
  r.status = "complete" || r.status = "error"

/-- `write_status` of `_run_search_process` (`jobs or []`). -/
def writeSearchStatus (status : String) (jobs : Option (List String)) (error : String) :
    StatusRec (List String) :=
  ⟨status, jobs.getD [], error⟩

/-- `_run_search_process`: the records it writes, in order.  The
try-body (scrape, dedup lookup, result assembly) either yields the
result list or raises with a message; the `finally` block only
closes the browser and writes nothing. -/
def runSearchProcess (body : Except String (List String)) : List (StatusRec (List String)) :=
  writeSearchStatus "running" none "" ::
    match body with
    | .ok results => [writeSearchStatus "complete" (some results) ""]
    | .error e => [writeSearchStatus "error" none e]

/-- `write_status` of `_run_linkedin_import_process`
(`profile or {}`); the profile dict is modelled as a key-value
list. -/
def writeImportStatus (status : String) (profile : Option (List (String × String)))
    (error : String) : StatusRec (List (String × String)) :=
  ⟨status, profile.getD [], error⟩

/-- `_run_linkedin_import_process`: the records it writes, in
order. -/
def runImportProcess (body : Except String (List (String × String))) :
    List (StatusRec (List (String × String))) :=
  writeImportStatus "running" none "" ::
    match body with
    | .ok profile_data => [writeImportStatus "complete" (some profile_data) ""]
    | .error e => [writeImportStatus "error" none e]

/-! ## Status-polling endpoints (`search_status`, `import_status`)

The status file is `missing`, `invalid` (unparsable JSON), or
holds a parsed record.  Each poller maps the file state to a
response kind and the file state it leaves behind (`unlink` is
wrapped in try/except in the source and modelled as succeeding). -/

inductive FileState (α : Type) where
  | missing
  | invalid
  | parsed (rec : StatusRec α)
  deriving DecidableEq, Repr

inductive PollResp where
  | notFound          -- 404 / "not found" redirect
  | failure           -- 500 JSON error / flashed status-check error
  | payload           -- JSON body with the record / success redirect
  | errorRedirect     -- import poller: flashed task error + redirect
  | waiting           -- non-terminal: JSON body / waiting page
  deriving DecidableEq, Repr

/-- `search_status` route: response and resulting file state.  The
file is deleted only in the `complete` branch. -/
def search_status (f : FileState (List String)) :
    PollResp × FileState (List String) :=
  match f with
  | .missing => (.notFound, .missing)
  | .invalid => (.failure, .invalid)
  | .parsed s =>
    if s.status = "complete" then (.payload, .missing)
    else (if s.terminal then .payload else .waiting, .parsed s)

/-- `import_status` route: response and resulting file state.  The
file is deleted in both the `complete` and the `error` branch. -/
def import_status (f : FileState (List (String × String))) :
    PollResp × FileState (List (String × String)) :=
  match f with
  | .missing => (.notFound, .missing)
  | .invalid => (.failure, .invalid)
  | .parsed s =>
    if s.status = "complete" then (.payload, .missing)
    else if s.status = "error" then (.errorRedirect, .missing)
    else (.waiting, .parsed s)

/-! ## Login-wait loops (`scrapers/linkedin.py`)

One observation of the browser per poll: the current URL, whether
a known navigation element is present, and whether reading the
page raised. -/

structure PageObs where
  url : String
  navPresent : Bool
  raised : Bool
  deriving DecidableEq, Repr

/-- `login_pages` list of `LinkedInScraper.search`. -/
def searchLoginMarker (url : String) : Bool :=
  strContains url "login" || strContains url "authwall" || strContains url "checkpoint" ||
  strContains url "uas/login" || strContains url "signin"

/-- `success_indicators` list of `LinkedInScraper.search`. -/
def searchSuccessUrl (url : String) : Bool :=
  strContains url "/feed" || strContains url "/jobs" || strContains url "/mynetwork" ||
  strContains url "/messaging" || strContains url "/notifications"

/-- The login-wait loop inside `LinkedInScraper.search` (polls
every 3 seconds against a 300-second deadline, hence at most
`300 / 3 = 100` polls; `obs i` is the page at poll `i`).  Returns
the final value of `logged_in`. -/
def searchLoginLoop (obs : Nat → PageObs) : Nat → Nat → Bool
  | _, 0 => false
  | i, fuel + 1 =>
    if (obs i).raised then searchLoginLoop obs (i + 1) fuel
    else if searchLoginMarker (obs i).url then searchLoginLoop obs (i + 1) fuel
    else if searchSuccessUrl (obs i).url && (obs i).navPresent then true
    else searchLoginLoop obs (i + 1) fuel

/-- `timeout = 300`, polling `time.sleep(3)`. -/
def loginTimeout : Nat := 300
def loginPollInterval : Nat := 3

/-- The login-required branch of `LinkedInScraper.search`: wait
for login, then either proceed or raise
`"Login timeout - please try again and complete the full login
process"`. -/
def searchAfterLoginRedirect (obs : Nat → PageObs) : Except String Unit :=
  if searchLoginLoop obs 0 (loginTimeout / loginPollInterval) then .ok ()
  else .error "Login timeout - please try again and complete the full login process"

/-- `is_logged_in`: navigate to `/feed` and inspect the resulting
page (exceptions yield `False`). -/
def is_logged_in (o : PageObs) : Bool :=
  if o.raised then false
  else if strContains o.url "login" || strContains o.url "authwall" ||
          strContains o.url "checkpoint" then false
  else if strContains o.url "feed" then true
  else o.navPresent

/-- Success-URL check of `LinkedInScraper.login`'s wait loop (no
navigation-element confirmation in this branch). -/
def loginSuccessUrl (url : String) : Bool :=
  strContains url "/feed" || strContains url "/jobs" || strContains url "/mynetwork" ||
  strContains url "/messaging"

/-- Login-marker check of `LinkedInScraper.login`'s wait loop. -/
def loginMarker (url : String) : Bool :=
  strContains url "login" || strContains url "checkpoint" || strContains url "authwall"

/-- The wait loop of `LinkedInScraper.login` (same 300-second /
3-second budget): `poll i` is the page at poll `i`, `feed i` the
page `is_logged_in` lands on when called at poll `i`. -/
def loginLoop (poll feed : Nat → PageObs) : Nat → Nat → Bool
  | _, 0 => false
  | i, fuel + 1 =>
    if (poll i).raised then loginLoop poll feed (i + 1) fuel
    else if loginSuccessUrl (poll i).url then true
    else if !(loginMarker (poll i).url) && is_logged_in (feed i) then true
    else loginLoop poll feed (i + 1) fuel

/-- `LinkedInScraper.login` with `wait_for_user=True` on a scraper
with `_logged_in = False`: the initial `is_logged_in` check
(observing `initFeed`), then the wait loop; returns whether login
is reported successful. -/
def loginAttempt (initFeed : PageObs) (poll feed : Nat → PageObs) : Bool :=
  if is_logged_in initFeed then true
  else loginLoop poll feed 0 (loginTimeout / loginPollInterval)

/-! ## Scraper teardown (`LinkedInScraper.stop`)

`stop` closes the browser if present, then stops playwright if
present; neither call is wrapped in a handler, so a raising
teardown step propagates (and skips the rest). -/

/-- `LinkedInScraper.stop`: `browserSome` / `playwrightSome` model
`self.browser` / `self.playwright` being non-None; `closeRaises` /
`stopRaises` model the external calls raising with a message. -/
def LinkedInScraper.stop (browserSome playwrightSome : Bool)
    (closeRaises stopRaises : Option String) : Except String Unit := do
  if browserSome then
    match closeRaises with
    | some e => throw e
    | none => pure ()
  if playwrightSome then
    match stopRaises with
    | some e => throw e
    | none => pure ()

/-! ## Settings route (`web/app.py, settings`) -/

structure SearchConfig where
  keywords : String
  location : String
  remoteOptions : List String
  experienceLevel : List String
  datePosted : String
  maxJobs : Nat
  deriving DecidableEq, Repr

structure LLMConfig where
  provider : String
  model : String
  apiKey : Option String
  baseUrl : String
  deriving DecidableEq, Repr

structure Config where
  search : SearchConfig
  llm : LLMConfig
  deriving DecidableEq, Repr

/-- The POST form fields of the settings page (`None` models an
absent field; `request.form.get` supplies the defaults). -/
structure SettingsForm where
  keywords : Option String
  location : Option String
  llmProvider : Option String
  llmModel : Option String
  apiKey : Option String
  deriving DecidableEq, Repr

/-- The POST branch of the `settings` route: the in-memory config
that `config.save()` then persists in full. -/
def settingsPost (c : Config) (f : SettingsForm) : Config :=
  let api_key := pyStrip (f.apiKey.getD "")
  { c with
    search := { c.search with
      keywords := f.keywords.getD ""
      location := f.location.getD "" }
    llm := { c.llm with
      provider := f.llmProvider.getD "ollama"
      model := f.llmModel.getD "llama3"
      apiKey := if api_key ≠ "" then some api_key else c.llm.apiKey } }

/-! ## Helper lemmas -/

theorem leadsList_self_append (n t : List Char) : leadsList n (n ++ t) = true := by
  induction n with
  | nil => simp [leadsList]
  | cons a as ih => simp [leadsList, ih]

theorem containsList_of_leads {h n : List Char} (hl : leadsList n h = true) :
    containsList h n = true := by
  cases h with
  | nil =>
    cases n with
    | nil => simp [containsList]
    | cons a as => simp [leadsList] at hl
  | cons c t => simp [containsList, hl]

theorem containsList_append_left (s t n : List Char) (h : containsList t n = true) :
    containsList (s ++ t) n = true := by
  induction s with
  | nil => simpa using h
  | cons a as ih => simp [containsList, ih]

theorem containsList_append_self (s n t : List Char) :
    containsList (s ++ (n ++ t)) n = true :=
  containsList_append_left s (n ++ t) n
    (containsList_of_leads (leadsList_self_append n t))

theorem stripChars_decomp (cs : List Char) :
    cs = cs.takeWhile Char.isWhitespace ++
      (stripChars cs ++
        ((cs.dropWhile Char.isWhitespace).reverse.takeWhile Char.isWhitespace).reverse) := by
  conv_lhs => rw [← List.takeWhile_append_dropWhile (p := Char.isWhitespace) (l := cs)]
  congr 1
  conv_lhs =>
    rw [← List.reverse_reverse (cs.dropWhile Char.isWhitespace),
      ← List.takeWhile_append_dropWhile (p := Char.isWhitespace)
        (l := (cs.dropWhile Char.isWhitespace).reverse)]
  rw [List.reverse_append]
  rfl

theorem containsList_stripChars (cs : List Char) : containsList cs (stripChars cs) = true := by
  have hdecomp := stripChars_decomp cs
  set st := stripChars cs with hst
  rw [hdecomp]
  exact containsList_append_self _ _ _

theorem toList_pyStrip (s : String) : (pyStrip s).toList = stripChars s.toList := rfl

theorem strContains_pyStrip (s : String) : strContains s (pyStrip s) = true := by
  unfold strContains
  rw [toList_pyStrip]
  exact containsList_stripChars s.toList

theorem strContains_append_right (a b : String) : strContains (a ++ b) b = true := by
  unfold strContains
  rw [show (a ++ b).toList = a.toList ++ (b.toList ++ []) by simp]
  exact containsList_append_self _ _ _

theorem strContains_append_middle (a b c : String) : strContains (a ++ b ++ c) b = true := by
  unfold strContains
  rw [show (a ++ b ++ c).toList = a.toList ++ (b.toList ++ c.toList) by simp]
  exact containsList_append_self _ _ _

/-! ## Claim theorems -/

/-- C5: for every job record round-tripped through `Job.save` then
`Job.load` on the written file, the fields id, title, company,
location, description, url, source, salary and posted_date are
preserved exactly (only the timestamp is normalized on load). -/
theorem C5_job_save_load_roundtrip (j : Job) (now : String) :
    (Job.load now (Job.save j)).id = j.id ∧
    (Job.load now (Job.save j)).title = j.title ∧
    (Job.load now (Job.save j)).company = j.company ∧
    (Job.load now (Job.save j)).location = j.location ∧
    (Job.load now (Job.save j)).description = j.description ∧
    (Job.load now (Job.save j)).url = j.url ∧
    (Job.load now (Job.save j)).source = j.source ∧
    (Job.load now (Job.save j)).salary = j.salary ∧
    (Job.load now (Job.save j)).posted_date = j.posted_date := by
  unfold Job.load Job.save Job.init
  split <;> simp

/-- C1: whatever the try-body of a spawned search or LinkedIn
profile-import process does (return or raise), the process writes
exactly one terminal status record, that record is the last one
written before exiting, and every record written with state
`running` carries an empty result payload. -/
theorem C1_spawned_process_status_writes
    (b₁ : Except String (List String)) (b₂ : Except String (List (String × String))) :
    (runSearchProcess b₁).countP StatusRec.terminal = 1 ∧
    (∃ r, (runSearchProcess b₁).getLast? = some r ∧ r.terminal = true) ∧
    (∀ r ∈ runSearchProcess b₁, r.status = "running" → r.payload = []) ∧
    (runImportProcess b₂).countP StatusRec.terminal = 1 ∧
    (∃ r, (runImportProcess b₂).getLast? = some r ∧ r.terminal = true) ∧
    (∀ r ∈ runImportProcess b₂, r.status = "running" → r.payload = []) := by
  cases b₁ <;> cases b₂ <;>
    simp [runSearchProcess, runImportProcess, writeSearchStatus, writeImportStatus,
      StatusRec.terminal, List.countP_cons, List.countP_nil]

/-- Witness for C1 at concrete outcomes: a raising search body
yields one terminal `error` record, and the `running` record
carries an empty payload. -/
theorem C1_witness :
    (runSearchProcess (.error "scrape failed")).countP StatusRec.terminal = 1 ∧
    (∀ r ∈ runSearchProcess (.error "scrape failed"), r.status = "running" → r.payload = []) ∧
    (runImportProcess (.ok [("name", "Jane")])).countP StatusRec.terminal = 1 :=
  ⟨(C1_spawned_process_status_writes (.error "scrape failed") (.ok [("name", "Jane")])).1,
   (C1_spawned_process_status_writes (.error "scrape failed") (.ok [("name", "Jane")])).2.2.1,
   (C1_spawned_process_status_writes (.error "scrape failed") (.ok [("name", "Jane")])).2.2.2.1⟩

/-- C8: `export_to_pdf` classifies non-empty lines by the fixed
branch order (heading markers, bullets, numbered lists, all-caps
heuristic, else paragraph): `## Experience` is an H2 heading,
`- Built X` a bullet, `SKILLS` (all caps, under 50 characters, at
most 5 words) an all-caps pseudo-heading, and `Regular text` a
plain paragraph. -/
theorem C8_pdf_line_classification :
    classifyLine "## Experience" = .h2 ∧
    classifyLine "- Built X" = .bullet ∧
    classifyLine "SKILLS" = .caps ∧
    (pyIsUpper "SKILLS" = true ∧ "SKILLS".length < 50 ∧ wordsCount "SKILLS" ≤ 5) ∧
    classifyLine "Regular text" = .paragraph ∧
    classifyLine "# Name" = .h1 ∧
    classifyLine "### Details" = .h3 ∧
    classifyLine "1. first" = .numbered := by
  decide

/-- C9: `clean_llm_output` removes the preamble sentence from raw
LLM output of the shape `Here's a resume for you:` followed by a
blank line and the document; the cleaned text starts directly with
`# Jane Doe`. -/
theorem C9_clean_llm_output_strips_preamble :
    clean_llm_output
        ("Here" ++ String.singleton apos ++
          "s a resume for you:\n\n# Jane Doe\nExperience at Acme.") =
      "# Jane Doe\nExperience at Acme." ∧
    pyStarts (clean_llm_output
        ("Here" ++ String.singleton apos ++
          "s a resume for you:\n\n# Jane Doe\nExperience at Acme."))
      "# Jane Doe" = true := by
  constructor
  · rfl
  · rfl

/-- C3: `_build_search_url` is deterministic (identical keywords,
location and filter lists give identical query strings), and every
remote-option, experience-level or date-posted value outside the
fixed enumeration tables is silently dropped: a filter list of
only unrecognized values yields the same URL as passing no filter
at all, so no code of an unrecognized value appears. -/
theorem C3_build_search_url_deterministic_drops_unknown :
    (∀ k₁ k₂ l₁ l₂ ro₁ ro₂ el₁ el₂ dp₁ dp₂,
      k₁ = k₂ → l₁ = l₂ → ro₁ = ro₂ → el₁ = el₂ → dp₁ = dp₂ →
      build_search_url k₁ l₁ ro₁ el₁ dp₁ = build_search_url k₂ l₂ ro₂ el₂ dp₂) ∧
    (∀ k l ro el dp, (∀ r ∈ ro, remote_map r = none) →
      build_search_url k l (some ro) el dp = build_search_url k l none el dp) ∧
    (∀ k l ro el dp, (∀ e ∈ el, exp_map e = none) →
      build_search_url k l ro (some el) dp = build_search_url k l ro none dp) ∧
    (∀ k l ro el d, date_map d = none →
      build_search_url k l ro el (some d) = build_search_url k l ro el none) := by
  refine ⟨?_, ?_, ?_, ?_⟩
  · intro k₁ k₂ l₁ l₂ ro₁ ro₂ el₁ el₂ dp₁ dp₂ hk hl hro hel hdp
    rw [hk, hl, hro, hel, hdp]
  · intro k l ro el dp h
    have hnil : ro.filterMap remote_map = [] := List.filterMap_eq_nil_iff.mpr h
    simp only [build_search_url, hnil]
    simp
  · intro k l ro el dp h
    have hnil : el.filterMap exp_map = [] := List.filterMap_eq_nil_iff.mpr h
    simp only [build_search_url, hnil]
    simp
  · intro k l ro el d h
    simp only [build_search_url, h]

/-- Witness for C3 at concrete inputs: unknown filter values
(`fully-remote`, `senior`, `fortnight`) are dropped, matching the
no-filter URL. -/
theorem C3_witness :
    build_search_url "rust dev" "Berlin" (some ["fully-remote"]) (some ["senior"])
        (some "fortnight") =
      build_search_url "rust dev" "Berlin" none none none := by
  have h₁ := C3_build_search_url_deterministic_drops_unknown.2.1
    "rust dev" "Berlin" ["fully-remote"] (some ["senior"]) (some "fortnight")
    (by intro r hr; simp at hr; rw [hr]; rfl)
  have h₂ := C3_build_search_url_deterministic_drops_unknown.2.2.1
    "rust dev" "Berlin" none ["senior"] (some "fortnight")
    (by intro e he; simp at he; rw [he]; rfl)
  have h₃ := C3_build_search_url_deterministic_drops_unknown.2.2.2
    "rust dev" "Berlin" none none "fortnight" rfl
  rw [h₁, h₂, h₃]

/-- C10: submitting the settings form with a blank (empty or
whitespace-only) API-key field leaves the stored LLM API key
unchanged while the other submitted settings (keywords, location,
provider, model) are updated; the stored key is replaced exactly
when a non-blank key is provided. -/
theorem C10_settings_blank_api_key_preserved (c : Config) (f : SettingsForm) :
    (pyStrip (f.apiKey.getD "") = "" →
      (settingsPost c f).llm.apiKey = c.llm.apiKey) ∧
    (pyStrip (f.apiKey.getD "") ≠ "" →
      (settingsPost c f).llm.apiKey = some (pyStrip (f.apiKey.getD ""))) ∧
    (settingsPost c f).search.keywords = f.keywords.getD "" ∧
    (settingsPost c f).search.location = f.location.getD "" ∧
    (settingsPost c f).llm.provider = f.llmProvider.getD "ollama" ∧
    (settingsPost c f).llm.model = f.llmModel.getD "llama3" := by
  unfold settingsPost
  refine ⟨fun h => ?_, fun h => ?_, rfl, rfl, rfl, rfl⟩
  · simp [h]
  · simp [h]

/-- Witness for C10: a whitespace-only API-key field leaves a
previously stored key in place while keywords are updated. -/
theorem C10_witness :
    (settingsPost
        ⟨⟨"old kw", "Remote", [], [], "week", 50⟩, ⟨"ollama", "llama3", some "sk-secret", "http://localhost:11434"⟩⟩
        ⟨some "new kw", some "Berlin", some "anthropic", some "claude", some "   "⟩).llm.apiKey =
      some "sk-secret" ∧
    (settingsPost
        ⟨⟨"old kw", "Remote", [], [], "week", 50⟩, ⟨"ollama", "llama3", some "sk-secret", "http://localhost:11434"⟩⟩
        ⟨some "new kw", some "Berlin", some "anthropic", some "claude", some "   "⟩).search.keywords =
      "new kw" := by
  refine ⟨?_, ?_⟩
  · exact (C10_settings_blank_api_key_preserved _ _).1 (by decide)
  · exact (C10_settings_blank_api_key_preserved _ _).2.2.1

/-- The search login-wait loop only inspects observations in the
window `[i, i + fuel)`. -/
theorem searchLoginLoop_congr (obs obs' : Nat → PageObs) :
    ∀ fuel i, (∀ j, i ≤ j → j < i + fuel → obs j = obs' j) →
    searchLoginLoop obs i fuel = searchLoginLoop obs' i fuel := by
  intro fuel
  induction fuel with
  | zero => intro i _; rfl
  | succ n ih =>
    intro i h
    have hi : obs i = obs' i := h i (Nat.le_refl i) (Nat.lt_add_of_pos_right (Nat.succ_pos n))
    have hrec := ih (i + 1) (fun j hj₁ hj₂ => h j (Nat.le_of_succ_le hj₁) (by omega))
    simp only [searchLoginLoop, hi, hrec]

/-- C2 counterexample: with every observation carrying
`navPresent = false` (so the URL is never a success indicator
confirmed by a navigation DOM element), `login` still reports a
successful login as soon as the URL contains `/jobs` — the
URL-substring check in `login`'s wait loop is not confirmed by any
navigation element, contradicting the claim that the operation
then fails (login returning `False`). -/
theorem C2_counterexample :
    (PageObs.navPresent ⟨"https://www.linkedin.com/jobs/search/?keywords=x", false, false⟩ = false ∧
     PageObs.navPresent ⟨"https://www.linkedin.com/authwall?sessionRedirect=x", false, false⟩ = false) ∧
    loginAttempt ⟨"https://www.linkedin.com/authwall?sessionRedirect=x", false, false⟩
      (fun _ => ⟨"https://www.linkedin.com/jobs/search/?keywords=x", false, false⟩)
      (fun _ => ⟨"https://www.linkedin.com/authwall?sessionRedirect=x", false, false⟩) = true := by
  refine ⟨⟨rfl, rfl⟩, ?_⟩
  rfl

/-- C2 (amended): if no poll ever shows a success-indicator URL
confirmed by the navigation-element check — for `search`: none of
the five indicator substrings together with a present navigation
element; for `login`: none of the four indicator substrings and
every `is_logged_in` probe failing — then both login waits
terminate with failure for every fuel budget: `search`'s wait
yields the `Login timeout` error and `login` returns false.
Moreover the `search` wait outcome only depends on the
`300 / 3 = 100` polls inside the timeout window. -/
theorem C2_amended_login_wait_timeout :
    (∀ (obs : Nat → PageObs) (i fuel : Nat),
      (∀ j, ¬(searchSuccessUrl (obs j).url = true ∧ (obs j).navPresent = true)) →
      searchLoginLoop obs i fuel = false) ∧
    (∀ (obs : Nat → PageObs),
      (∀ j, ¬(searchSuccessUrl (obs j).url = true ∧ (obs j).navPresent = true)) →
      searchAfterLoginRedirect obs =
        .error "Login timeout - please try again and complete the full login process") ∧
    (∀ (poll feed : Nat → PageObs) (i fuel : Nat),
      (∀ j, loginSuccessUrl (poll j).url = false) →
      (∀ j, is_logged_in (feed j) = false) →
      loginLoop poll feed i fuel = false) ∧
    (∀ (initFeed : PageObs) (poll feed : Nat → PageObs),
      is_logged_in initFeed = false →
      (∀ j, loginSuccessUrl (poll j).url = false) →
      (∀ j, is_logged_in (feed j) = false) →
      loginAttempt initFeed poll feed = false) ∧
    (∀ (obs obs' : Nat → PageObs),
      (∀ j, j < loginTimeout / loginPollInterval → obs j = obs' j) →
      searchAfterLoginRedirect obs = searchAfterLoginRedirect obs') := by
  have hsearch : ∀ (obs : Nat → PageObs) (fuel i : Nat),
      (∀ j, ¬(searchSuccessUrl (obs j).url = true ∧ (obs j).navPresent = true)) →
      searchLoginLoop obs i fuel = false := by
    intro obs fuel
    induction fuel with
    | zero => intro i _; rfl
    | succ n ih =>
      intro i h
      simp only [searchLoginLoop]
      split_ifs with h₁ h₂ h₃
      · exact ih (i + 1) h
      · exact ih (i + 1) h
      · rw [Bool.and_eq_true] at h₃
        exact absurd ⟨h₃.1, h₃.2⟩ (h i)
      · exact ih (i + 1) h
  have hlogin : ∀ (poll feed : Nat → PageObs) (fuel i : Nat),
      (∀ j, loginSuccessUrl (poll j).url = false) →
      (∀ j, is_logged_in (feed j) = false) →
      loginLoop poll feed i fuel = false := by
    intro poll feed fuel
    induction fuel with
    | zero => intro i _ _; rfl
    | succ n ih =>
      intro i h₁ h₂
      simp only [loginLoop]
      split_ifs with hr hs hf
      · exact ih (i + 1) h₁ h₂
      · exact absurd hs (by simp [h₁ i])
      · rw [Bool.and_eq_true] at hf
        exact absurd hf.2 (by simp [h₂ i])
      · exact ih (i + 1) h₁ h₂
  refine ⟨fun obs i fuel h => hsearch obs fuel i h, ?_, fun p f i fuel h₁ h₂ => hlogin p f fuel i h₁ h₂, ?_, ?_⟩
  · intro obs h
    unfold searchAfterLoginRedirect
    rw [hsearch obs _ 0 h]
    rfl
  · intro initFeed poll feed h₀ h₁ h₂
    unfold loginAttempt
    rw [h₀, hlogin poll feed _ 0 h₁ h₂]
    rfl
  · intro obs obs' h
    unfold searchAfterLoginRedirect
    rw [searchLoginLoop_congr obs obs' (loginTimeout / loginPollInterval) 0
      (fun j _ hj₂ => h j (by simpa using hj₂))]

/-- Witness for C2 (amended): a browser stuck on the login page
(never a success URL, never a navigation element) makes `search`'s
wait yield the Login-timeout error and `login` return false. -/
theorem C2_amended_witness :
    searchAfterLoginRedirect (fun _ => ⟨"https://www.linkedin.com/login", false, false⟩) =
      .error "Login timeout - please try again and complete the full login process" ∧
    loginAttempt ⟨"https://www.linkedin.com/authwall?sessionRedirect=x", false, false⟩
      (fun _ => ⟨"https://www.linkedin.com/login", false, false⟩)
      (fun _ => ⟨"https://www.linkedin.com/authwall?sessionRedirect=x", false, false⟩) = false := by
  constructor
  · exact C2_amended_login_wait_timeout.2.1 _ (fun j => by intro hc; exact absurd hc.1 (by decide))
  · exact C2_amended_login_wait_timeout.2.2.2.1 _ _ _ (by decide)
      (fun j => by decide) (fun j => by decide)

/-- C4 counterexample: a GitHub import into a non-empty background
that already contains the `=== FROM GITHUB ===` marker leaves the
background unchanged, so the newly imported text does not appear
anywhere (in particular not as a labelled section), contradicting
the claim that every import adds the new text as a separate
section. -/
theorem C4_counterexample :
    pyStrip "Original background.\n\n=== FROM GITHUB ===\nold data" ≠ "" ∧
    mergeGithub "Original background.\n\n=== FROM GITHUB ===\nold data" "NEW GITHUB DATA" =
      "Original background.\n\n=== FROM GITHUB ===\nold data" ∧
    strContains
      (mergeGithub "Original background.\n\n=== FROM GITHUB ===\nold data" "NEW GITHUB DATA")
      "NEW GITHUB DATA" = false := by
  refine ⟨by decide, by decide, by decide⟩

/-- The left part of a concatenation is contained in it. -/
theorem strContains_self_append (a b : String) : strContains (a ++ b) a = true := by
  unfold strContains
  rw [show (a ++ b).toList = [] ++ (a.toList ++ b.toList) by simp]
  exact containsList_append_self _ _ _

/-- C4 (amended): for every import into a non-empty background
without explicit replacement, the merged background still contains
the whole trimmed prior background; and whenever the duplicate
check passes (the new content is not already detected in the
background), the new text is placed as a separate section under
its labelled header (`=== FROM RESUME ===`, `=== FROM GITHUB ===`,
`=== FROM LINKEDIN ===`); when the duplicate check fires instead,
the background is left unchanged, dropping the new text. -/
theorem C4_amended_merge_preserves_prior :
    (∀ e n, pyStrip e ≠ "" →
      strContains (mergeResumeUpload false e n) (pyStrip e) = true) ∧
    (∀ e n, pyStrip e ≠ "" →
      strContains (pyStrip e) (pyTake 100 (pyStrip n)) = false →
      mergeResumeUpload false e n =
        "=== FROM RESUME ===\n" ++ pyStrip n ++ "\n\n" ++ pyStrip e) ∧
    (∀ e g, pyStrip e ≠ "" →
      strContains (mergeGithub e g) (pyStrip e) = true) ∧
    (∀ e g, pyStrip e ≠ "" →
      strContains (pyStrip e) "=== FROM GITHUB ===" = false →
      mergeGithub e g = pyStrip e ++ "\n\n=== FROM GITHUB ===\n" ++ g) ∧
    (∀ e l, pyStrip e ≠ "" →
      strContains (mergeLinkedin true e l) (pyStrip e) = true) ∧
    (∀ e l, pyStrip e ≠ "" →
      strContains (pyStrip e) (pyTake 100 (pyStrip l)) = false →
      mergeLinkedin true e l =
        "=== FROM LINKEDIN ===\n" ++ pyStrip l ++ "\n\n=== FROM RESUME ===\n" ++ pyStrip e) := by
  refine ⟨?_, ?_, ?_, ?_, ?_, ?_⟩
  · intro e n he
    simp only [mergeResumeUpload]
    split_ifs with h₁ h₂
    · exact absurd (by simpa using h₁) he
    · exact strContains_append_right _ _
    · exact strContains_pyStrip e
  · intro e n he hd
    simp only [mergeResumeUpload]
    rw [if_neg (by simp [he]), if_pos (by simp [hd])]
  · intro e g he
    simp only [mergeGithub]
    split_ifs with h₁
    · rw [String.append_assoc]
      exact strContains_self_append _ _
    · exact strContains_pyStrip e
  · intro e g he hd
    simp only [mergeGithub]
    rw [if_pos he, if_pos (by simp [hd])]
  · intro e l he
    simp only [mergeLinkedin, Bool.not_true]
    rw [if_neg (by simp)]
    split_ifs with h₁
    · exact strContains_append_right _ _
    · exact strContains_pyStrip e
  · intro e l he hd
    simp only [mergeLinkedin, Bool.not_true]
    rw [if_neg (by simp), if_pos he, if_pos (by simp [hd])]

/-- Witness for C4 (amended) at concrete inputs. -/
theorem C4_amended_witness :
    strContains (mergeGithub "Prior background." "github stuff")
      (pyStrip "Prior background.") = true ∧
    mergeResumeUpload false "Prior background." "new resume text" =
      "=== FROM RESUME ===\n" ++ pyStrip "new resume text" ++ "\n\n" ++
        pyStrip "Prior background." := by
  constructor
  · exact C4_amended_merge_preserves_prior.2.2.1 _ _ (by decide)
  · exact C4_amended_merge_preserves_prior.2.1 _ _ (by decide) (by decide)

/-- C6 counterexample: when the browser-close call raises during
teardown, `stop()` propagates the exception instead of swallowing
it — contradicting the claim that `stop()` never raises. -/
theorem C6_counterexample :
    LinkedInScraper.stop true true (some "browser close failed") none =
      Except.error "browser close failed" := rfl

/-- C6 (amended): `stop()` unconditionally closes the browser (if
present) and then stops playwright (if present); it completes
normally when neither teardown call raises, but it has no handler:
an error raised by a teardown step propagates to the caller and
skips the remaining teardown step. -/
theorem C6_amended_stop_teardown (b p : Bool) (e₁ e₂ : String) (s : Option String) :
    LinkedInScraper.stop b p none none = .ok () ∧
    LinkedInScraper.stop true p (some e₁) s = .error e₁ ∧
    LinkedInScraper.stop b true none (some e₂) = .error e₂ := by
  refine ⟨?_, rfl, ?_⟩
  · cases b <;> cases p <;> rfl
  · cases b <;> rfl

/-- C7 counterexample: polling `search_status` on a status file
holding the terminal `error` state leaves the file in place — the
search poller deletes the file only on `complete`, contradicting
the claim that both pollers consume and delete the file on every
terminal state. -/
theorem C7_counterexample :
    StatusRec.terminal (⟨"error", [], "scrape failed"⟩ : StatusRec (List String)) = true ∧
    (search_status (.parsed ⟨"error", [], "scrape failed"⟩)).2 =
      .parsed ⟨"error", [], "scrape failed"⟩ := ⟨rfl, rfl⟩

/-- C7 (amended): the import poller consumes and deletes the
status file on both terminal states (`complete` and `error`),
while the search poller deletes it only on `complete` and leaves
an `error` status file in place; on the non-terminal states
(`starting`, `running`) both pollers leave the file in place. -/
theorem C7_amended_poller_file_consumption (jobs : List String) (err : String)
    (p : List (String × String)) (perr : String) :
    (search_status (.parsed ⟨"complete", jobs, err⟩)).2 = .missing ∧
    (search_status (.parsed ⟨"error", jobs, err⟩)).2 = .parsed ⟨"error", jobs, err⟩ ∧
    (search_status (.parsed ⟨"starting", jobs, err⟩)).2 = .parsed ⟨"starting", jobs, err⟩ ∧
    (search_status (.parsed ⟨"running", jobs, err⟩)).2 = .parsed ⟨"running", jobs, err⟩ ∧
    (import_status (.parsed ⟨"complete", p, perr⟩)).2 = .missing ∧
    (import_status (.parsed ⟨"error", p, perr⟩)).2 = .missing ∧
    (import_status (.parsed ⟨"starting", p, perr⟩)).2 = .parsed ⟨"starting", p, perr⟩ ∧
    (import_status (.parsed ⟨"running", p, perr⟩)).2 = .parsed ⟨"running", p, perr⟩ :=
  ⟨rfl, rfl, rfl, rfl, rfl, rfl, rfl, rfl⟩

end Jobkit
